import Mathlib

/-!
Verification development for the expense-claim backend
(`src/routers/claims.js`, `src/routers/users.js`, `src/routers/auth.js`,
`src/models/claim.js`, the user model, and the audit-log model).

The repository ships two concatenated variants of the claims router inside
`src/routers/claims.js`; handlers below carry a `V1` suffix for the first
variant and `V2` for the second.  Both router variants import the single
claim model `src/models/claim.js`, whose status enum and required fields
are embedded in `claimValid` below.  Stateful endpoint handlers are
embedded as pure functions from an explicit store (a list of records) to a
response envelope paired with the successor store.  Monetary amounts are
embedded as rationals; timestamps are an abstract tick passed in as `now`.
-/

namespace IfrsClaims

/-- Authenticated caller identity as decoded from the bearer token by the
`verifyToken` middleware: the `userId` and `role` fields of the JWT payload
issued at login. -/
structure Actor where
  userId : String
  role : String
deriving DecidableEq

/-- Response envelope: HTTP status code plus the `success` flag and the
`message` field of the JSON body (validation-error arrays are collapsed to
a representative message string). -/
structure Resp where
  code : Nat
  success : Bool
  message : String
deriving DecidableEq

/-- Builds a response envelope. -/
def resp (code : Nat) (success : Bool) (message : String) : Resp :=
  ⟨code, success, message⟩

/-- ASCII lower-casing of a character: model of the character-level effect
of JavaScript toLowerCase / toLocaleLowerCase on the ASCII strings this
system stores. -/
def lcChar (c : Char) : Char :=
  if 'A' ≤ c ∧ c ≤ 'Z' then Char.ofNat (c.toNat + 32) else c

/-- ASCII upper-casing of a character, the model of toUpperCase. -/
def ucChar (c : Char) : Char :=
  if 'a' ≤ c ∧ c ≤ 'z' then Char.ofNat (c.toNat - 32) else c

/-- Model of JavaScript String.prototype.toLowerCase. -/
def lcStr (s : String) : String := ⟨s.data.map lcChar⟩

/-- Model of JavaScript String.prototype.toUpperCase. -/
def ucStr (s : String) : String := ⟨s.data.map ucChar⟩

/-- Whitespace test used by the trim model. -/
def isWS (c : Char) : Bool := c == ' ' || c == '\t' || c == '\n' || c == '\r'

/-- Model of the express-validator trim sanitizer (JavaScript trim):
removes leading and trailing whitespace. -/
def trimStr (s : String) : String :=
  ⟨((s.data.dropWhile isWS).reverse.dropWhile isWS).reverse⟩

/-- Simplified model of the external express-validator isEmail check; the
claims under verification do not depend on its precise semantics. -/
def isEmailOk (s : String) : Bool := s.data.contains '@'

/-- Simplified YYYY-MM-DD model of the external express-validator isISO8601
check; the claims under verification do not depend on its precise
semantics. -/
def isDateOk (s : String) : Bool :=
  match s.data with
  | [y1, y2, y3, y4, '-', m1, m2, '-', d1, d2] =>
      [y1, y2, y3, y4, m1, m2, d1, d2].all (fun c => c.isDigit)
  | _ => false

/-- Modelled from the spec: `src/middlewares/auth.js` (the `checkRole`
middleware every router attaches after `verifyToken`) is not present under
`src/`.  Per spec section 7, a valid identity with insufficient capability
is an AuthorizationError answered with HTTP 403 and the standard envelope;
`checkRole` therefore passes the request through exactly when the caller
role is one of the roles the route lists. -/
def checkRole (allowed : List String) (role : String) : Prop := role ∈ allowed

instance (allowed : List String) (role : String) : Decidable (checkRole allowed role) :=
  inferInstanceAs (Decidable (role ∈ allowed))

/-- Standard 403 body produced when `checkRole` denies the request
(modelled from the spec, section 7). -/
def accessDenied : Resp := resp 403 false "Access denied"

end IfrsClaims

namespace IfrsClaims

/-- Claim record, embedding the fields of `claimSchema` in
`src/models/claim.js` that the routers read or write.  `oid` stands for
the MongoDB `_id`; optional schema fields default to `none` and schema
defaults (`status`, `currency`) are the structure defaults.  The router
paths `description`, `user_name`, `recommendation`, `recommendation_by`
and `recommendation_at` are not claim-schema paths, so mongoose strict
mode discards writes to them and they have no field here. -/
structure ClaimRec where
  oid : String
  claim_id : String
  user_id : String
  claimant_name : Option String := none
  employee_id : Option String := none
  category : Option String := none
  date : Option String := none
  claim_type : Option String := none
  amount : ℚ
  currency : String := "£"
  receipt_url : Option String := none
  receipt_filename : Option String := none
  reason : Option String := none
  expense_description : Option String := none
  bank_transfer_amount : Option ℚ := none
  vat_amount : Option ℚ := none
  cash_amount : Option ℚ := none
  status : String := "new"
  notes : Option String := none
  notesByAdmin : Option String := none
  approved_by : Option String := none
  approved_at : Option Nat := none
  rejected_by : Option String := none
  rejected_at : Option Nat := none
  rejection_reason : Option String := none
  paid_by : Option String := none
  paid_at : Option Nat := none
  payment_reference : Option String := none
  company_name : Option String := none
  contact_person : Option String := none
  contact_email : Option String := none
deriving DecidableEq

/-- The status enum of `claimSchema` in `src/models/claim.js`
(lines 75-79). -/
def statusEnum : List String :=
  ["new", "verified", "rejected", "paid", "approved", "pending"]

/-- A mongoose required String path must be present and non-empty. -/
def reqStr (o : Option String) : Prop := o.getD "" ≠ ""

instance (o : Option String) : Decidable (reqStr o) :=
  inferInstanceAs (Decidable (o.getD "" ≠ ""))

/-- Mongoose document validation for `claimSchema`: the required paths
(`claim_id`, `user_id`, `claimant_name`, `employee_id`, `date`,
`claim_type`, `amount`), the `min: 0` bound on `amount`, and the `status`
enum. -/
def claimValid (c : ClaimRec) : Prop :=
  c.claim_id ≠ "" ∧ c.user_id ≠ "" ∧ reqStr c.claimant_name ∧
  reqStr c.employee_id ∧ reqStr c.date ∧ reqStr c.claim_type ∧
  0 ≤ c.amount ∧ c.status ∈ statusEnum

instance (c : ClaimRec) : Decidable (claimValid c) := by
  unfold claimValid; infer_instance

/-- Claim.findById: the store lookup by document id. -/
def findClaim (cid : String) (store : List ClaimRec) : Option ClaimRec :=
  store.find? (fun d => d.oid == cid)

/-- claim.save() on an existing document: mongoose validates the document
against the schema; on success the stored copy is replaced, on a
validation error the handler catch block answers 500 and the store is
untouched. -/
def saveClaimUpdate (c : ClaimRec) (store : List ClaimRec) :
    Option (List ClaimRec) :=
  if claimValid c then
    some (store.map (fun d => if d.oid = c.oid then c else d))
  else none

/-- claim.save() on a freshly constructed document: validate, then append
to the store. -/
def saveClaimNew (c : ClaimRec) (store : List ClaimRec) :
    Option (List ClaimRec) :=
  if claimValid c then some (store ++ [c]) else none

/-- Common lookup pattern shared by every single-claim handler: answer 404
when the id resolves to no stored claim, continue with the document
otherwise. -/
def withClaim (cid : String) (store : List ClaimRec)
    (k : ClaimRec → Resp × List ClaimRec) : Resp × List ClaimRec :=
  match findClaim cid store with
  | none => (resp 404 false "Claim not found", store)
  | some c => k c

theorem withClaim_some {cid : String} {store : List ClaimRec} {c : ClaimRec}
    (k : ClaimRec → Resp × List ClaimRec)
    (h : findClaim cid store = some c) :
    withClaim cid store k = k c := by
  unfold withClaim; rw [h]

end IfrsClaims

namespace IfrsClaims

/-- Initial status chosen by the first create handler
(`src/routers/claims.js` lines 214-219): amounts above 1000 start in
`pending`, everything else starts in `new`. -/
def initialStatusV1 (amount : ℚ) : String :=
  if 1000 < amount then "pending" else "new"

/-- Request body of the first create handler (POST /api/claims, variant 1),
after the express-validator trim sanitizers. -/
structure CreateBodyV1 where
  date : String
  claim_id : String
  description : String
  category : String
  amount : ℚ
  currency : Option String := none
  notes : Option String := none
  file : Option String := none
deriving DecidableEq

/-- The category whitelist of the variant-1 create validator. -/
def categoryEnumV1 : List String :=
  ["Travel", "Meal", "Office Supplies", "Equipment", "Training", "Other"]

/-- User record, embedding the fields of `userSchema`
(`src/unnamed/part_000`) that the routers read or write; `oid` stands for
the MongoDB `_id` and `password` for the stored credential.  The opaque
credential verifier (`comparePassword`, a bcrypt comparison in the source)
is embedded as equality of the candidate with the stored credential. -/
structure UserRec where
  oid : String
  employee_id : String
  name : String
  email : String
  password : String
  role : String := "worker"
  department : String
  phone : Option String := none
  status : String := "active"
  last_login : Option Nat := none
deriving DecidableEq

/-- The role enum of `userSchema`. -/
def roleEnum : List String := ["admin", "worker", "administrator", "accountant"]

/-- The status enum of `userSchema`. -/
def userStatusEnum : List String := ["active", "inactive", "suspended"]

/-- Mongoose document validation for `userSchema`: required non-empty
String paths, the password minlength, and the two enums. -/
def userValid (u : UserRec) : Prop :=
  u.employee_id ≠ "" ∧ u.name ≠ "" ∧ u.email ≠ "" ∧ 6 ≤ u.password.length ∧
  u.role ∈ roleEnum ∧ u.status ∈ userStatusEnum ∧ u.department ≠ ""

instance (u : UserRec) : Decidable (userValid u) := by
  unfold userValid; infer_instance

/-- User.findById. -/
def findUser (uid : String) (users : List UserRec) : Option UserRec :=
  users.find? (fun v => v.oid == uid)

/-- user.save() on an existing document: validate then replace. -/
def saveUserUpdate (u : UserRec) (users : List UserRec) :
    Option (List UserRec) :=
  if userValid u then
    some (users.map (fun v => if v.oid = u.oid then u else v))
  else none

/-- user.comparePassword: the opaque credential verifier, embedded as
equality of the candidate with the stored credential. -/
def comparePassword (candidate : String) (u : UserRec) : Prop :=
  candidate = u.password

instance (candidate : String) (u : UserRec) :
    Decidable (comparePassword candidate u) :=
  inferInstanceAs (Decidable (candidate = u.password))

/-- POST /api/claims, variant 1 (`src/routers/claims.js` lines 160-241).
Role guard worker/admin, validator chain, user lookup, then the claim is
built and saved.  The handler writes `user_name` and `description`, which
are not claim-schema paths and are therefore discarded by mongoose strict
mode; `claimant_name` and `claim_type` are never set, so they stay absent
in the document this variant builds.  `newOid` stands for the fresh
MongoDB id of the new document. -/
def createClaimV1 (actor : Actor) (b : CreateBodyV1) (newOid : String)
    (users : List UserRec) (store : List ClaimRec) : Resp × List ClaimRec :=
  if ¬ checkRole ["worker", "admin"] actor.role then (accessDenied, store)
  else if ¬ (isDateOk b.date ∧ trimStr b.claim_id ≠ "" ∧
      trimStr b.description ≠ "" ∧ b.category ∈ categoryEnumV1 ∧
      0 ≤ b.amount) then
    (resp 400 false "Validation failed", store)
  else match findUser actor.userId users with
  | none => (resp 404 false "User not found", store)
  | some user =>
    let c : ClaimRec :=
      { oid := newOid,
        claim_id := trimStr b.claim_id,
        user_id := actor.userId,
        employee_id := some user.employee_id,
        date := some b.date,
        category := some b.category,
        amount := b.amount,
        currency := match b.currency with
          | some s => if s = "" then "GBP" else s
          | none => "GBP",
        notes := b.notes,
        receipt_filename := b.file,
        receipt_url := b.file.map (fun f => "/uploads/receipts/" ++ f),
        status := initialStatusV1 b.amount }
    match saveClaimNew c store with
    | none => (resp 500 false "Server error", store)
    | some s => (resp 201 true "Claim submitted successfully", s)

/-- Request body of the second create handler (POST /api/claims,
variant 2).  The handler spreads the whole body into the claim data, so
every claim-schema path a client sends is carried through; fields the
validators mention but the schema lacks (image, user_name) are dropped by
mongoose strict mode and have no field here. -/
structure CreateBodyV2 where
  date : String
  claim_id : Option String := none
  claimant_name : Option String := none
  expense_description : Option String := none
  category : Option String := none
  currency : String
  company_name : String
  contact_person : String
  contact_email : String
  amount : ℚ
  bank_transfer_amount : Option ℚ := none
  vat_amount : Option ℚ := none
  cash_amount : Option ℚ := none
  reason : Option String := none
  notes : Option String := none
  file : Option String := none
deriving DecidableEq

/-- The isFloat min 0 check of an optional numeric body field. -/
def optAmtOk (o : Option ℚ) : Bool :=
  match o with
  | some a => decide (0 ≤ a)
  | none => true

/-- The claim document built by the variant-2 create handler
(`src/routers/claims.js` lines 890-912): the spread body with `user_id`,
`employee_id` and `claim_type` overridden from the caller, and the initial
status set unconditionally to `new` (line 912). -/
def claimDataV2 (actor : Actor) (user : UserRec) (b : CreateBodyV2)
    (newOid : String) : ClaimRec :=
  { oid := newOid,
    claim_id := trimStr (b.claim_id.getD ""),
    user_id := actor.userId,
    claimant_name := b.claimant_name,
    employee_id := some user.employee_id,
    category := b.category.map trimStr,
    date := some b.date,
    claim_type := b.category.map trimStr,
    amount := b.amount,
    currency := trimStr b.currency,
    reason := b.reason.map trimStr,
    expense_description := b.expense_description.map trimStr,
    bank_transfer_amount := b.bank_transfer_amount,
    vat_amount := b.vat_amount,
    cash_amount := b.cash_amount,
    notes := b.notes.map trimStr,
    receipt_filename := b.file,
    receipt_url := b.file.map (fun f => "/uploads/receipts/" ++ f),
    company_name := some (trimStr b.company_name),
    contact_person := some (trimStr b.contact_person),
    contact_email := some b.contact_email,
    status := "new" }

/-- The validator chain of the variant-2 create handler
(`src/routers/claims.js` lines 842-858): required ISO date, non-empty
trimmed currency, company name and contact person, a valid contact email,
a non-negative amount, and a non-negative bank-transfer amount when one is
sent. -/
def createOkV2 (b : CreateBodyV2) : Prop :=
  isDateOk b.date ∧ trimStr b.currency ≠ "" ∧
  trimStr b.company_name ≠ "" ∧
  optAmtOk b.bank_transfer_amount ∧
  trimStr b.contact_person ≠ "" ∧ isEmailOk b.contact_email ∧
  0 ≤ b.amount

instance (b : CreateBodyV2) : Decidable (createOkV2 b) := by
  unfold createOkV2; infer_instance

/-- POST /api/claims, variant 2 (`src/routers/claims.js` lines 838-934).
Role guard worker/admin, validator chain, user lookup, then `claimDataV2`
is saved. -/
def createClaimV2 (actor : Actor) (b : CreateBodyV2) (newOid : String)
    (users : List UserRec) (store : List ClaimRec) : Resp × List ClaimRec :=
  if ¬ checkRole ["worker", "admin"] actor.role then (accessDenied, store)
  else if ¬ createOkV2 b then
    -- the handler builds the 400 message with errors.array().forEach,
    -- which returns undefined; the message is modelled as empty
    (resp 400 false "", store)
  else match findUser actor.userId users with
  | none => (resp 404 false "User not found", store)
  | some user =>
    match saveClaimNew (claimDataV2 actor user b newOid) store with
    | none => (resp 500 false "Server error", store)
    | some s => (resp 201 true "Claim submitted successfully", s)

end IfrsClaims

namespace IfrsClaims

/-- GET /api/claims/:id, identical in both router variants
(`src/routers/claims.js` lines 121-155 and 799-833): lookup, then the
ownership check admits the owner or an admin. -/
def getClaim (actor : Actor) (cid : String) (store : List ClaimRec) : Resp :=
  match findClaim cid store with
  | none => resp 404 false "Claim not found"
  | some c =>
    if actor.role ≠ "admin" ∧ c.user_id ≠ actor.userId then
      resp 403 false "Access denied"
    else resp 200 true ""

/-- Request body of the two update handlers (PUT /api/claims/:id).
`file` stands for an uploaded receipt. -/
structure UpdateBody where
  description : Option String := none
  category : Option String := none
  amount : Option ℚ := none
  notes : Option String := none
  file : Option String := none
deriving DecidableEq

/-- JavaScript truthiness of an optional numeric body field. -/
def amtTruthy (o : Option ℚ) : Bool :=
  match o with
  | some a => decide (a ≠ 0)
  | none => false

/-- Field updates shared by both update handlers
(`src/routers/claims.js` lines 273-288 and 966-984): truthy body fields
overwrite, `notes` is overwritten whenever present, a fresh receipt
replaces the stored one, and a truthy amount above 1000 promotes a `new`
claim to `pending`.  The body path `description` is not a claim-schema
path, so mongoose strict mode discards that assignment. -/
def applyClaimUpdate (b : UpdateBody) (c : ClaimRec) : ClaimRec :=
  let c1 : ClaimRec :=
    { c with
      category := match b.category with
        | some s => if s = "" then c.category else some s
        | none => c.category,
      amount := match b.amount with
        | some a => if a = 0 then c.amount else a
        | none => c.amount,
      notes := match b.notes with
        | some n => some n
        | none => c.notes,
      receipt_filename := match b.file with
        | some f => some f
        | none => c.receipt_filename,
      receipt_url := match b.file with
        | some f => some ("/uploads/receipts/" ++ f)
        | none => c.receipt_url }
  if amtTruthy b.amount ∧ 1000 < b.amount.getD 0 ∧ c1.status = "new" then
    { c1 with status := "pending" }
  else c1

/-- PUT /api/claims/:id, variant 1 (`src/routers/claims.js`
lines 246-308): lookup, owner-or-admin check, early-status guard
(`new`, `pending`, `recommendation`), then the shared field updates. -/
def updateClaimV1 (actor : Actor) (cid : String) (b : UpdateBody)
    (store : List ClaimRec) : Resp × List ClaimRec :=
  withClaim cid store (fun c =>
    if actor.role ≠ "admin" ∧ c.user_id ≠ actor.userId then
      (resp 403 false "Access denied", store)
    else if c.status ∉ (["new", "pending", "recommendation"] : List String) then
      (resp 400 false "Cannot update claim in current status", store)
    else match saveClaimUpdate (applyClaimUpdate b c) store with
    | none => (resp 500 false "Server error", store)
    | some s => (resp 200 true "Claim updated successfully", s))

/-- PUT /api/claims/:id, variant 2 (`src/routers/claims.js`
lines 939-1004).  The ownership condition is
`req.user.role !== admin || claim.user_id.toString() !== req.user.userId`,
which denies every caller except an admin editing a claim they own; the
early-status list is `new`, `pending`, `verified`. -/
def updateClaimV2 (actor : Actor) (cid : String) (b : UpdateBody)
    (store : List ClaimRec) : Resp × List ClaimRec :=
  withClaim cid store (fun c =>
    if actor.role ≠ "admin" ∨ c.user_id ≠ actor.userId then
      (resp 403 false "Access denied", store)
    else if c.status ∉ (["new", "pending", "verified"] : List String) then
      (resp 400 false "Cannot update claim in current status", store)
    else match saveClaimUpdate (applyClaimUpdate b c) store with
    | none => (resp 500 false "Server error", store)
    | some s => (resp 200 true "Claim updated successfully", s))

/-- PUT /api/claims/:id/approve (`src/routers/claims.js` lines 313-362):
admin/approver role guard, lookup, then the status guard admits only
`new`, `pending` and `recommendation`; on success the claim is stamped
with the acting user and a timestamp. -/
def approveClaimV1 (now : Nat) (actor : Actor) (cid : String)
    (notes : String) (store : List ClaimRec) : Resp × List ClaimRec :=
  if ¬ checkRole ["admin", "approver"] actor.role then (accessDenied, store)
  else withClaim cid store (fun c =>
    if c.status ∉ (["new", "pending", "recommendation"] : List String) then
      (resp 400 false ("Claim cannot be approved in " ++ c.status ++ " status"),
       store)
    else
      let nT := trimStr notes
      let c1 : ClaimRec :=
        { c with status := "approved", approved_by := some actor.userId,
                 approved_at := some now,
                 notes := if nT = "" then c.notes else some nT }
      match saveClaimUpdate c1 store with
      | none => (resp 500 false "Server error", store)
      | some s => (resp 200 true "Claim approved successfully", s))

/-- PUT /api/claims/:id/reject (`src/routers/claims.js` lines 367-425):
admin/approver role guard, then the validator chain demands a non-empty
trimmed reason before the handler touches the store; then lookup, the
status guard, and the rejection stamp. -/
def rejectClaimV1 (now : Nat) (actor : Actor) (cid : String)
    (reason : String) (store : List ClaimRec) : Resp × List ClaimRec :=
  if ¬ checkRole ["admin", "approver"] actor.role then (accessDenied, store)
  else
    let rT := trimStr reason
    if rT = "" then (resp 400 false "Rejection reason is required", store)
    else withClaim cid store (fun c =>
      if c.status ∉ (["new", "pending", "recommendation"] : List String) then
        (resp 400 false ("Claim cannot be rejected in " ++ c.status ++ " status"),
         store)
      else
        let c1 : ClaimRec :=
          { c with status := "rejected", rejected_by := some actor.userId,
                   rejected_at := some now, rejection_reason := some rT }
        match saveClaimUpdate c1 store with
        | none => (resp 500 false "Server error", store)
        | some s => (resp 200 true "Claim rejected successfully", s))

/-- PUT /api/claims/:id/recommend (`src/routers/claims.js`
lines 430-480): admin/approver role guard, a non-empty trimmed
recommendation, lookup — and then, with no status guard at all, the
handler sets `status` to `recommendation` and saves.  The
`recommendation`, `recommendation_by` and `recommendation_at` paths are
not in the claim schema and are discarded by mongoose strict mode. -/
def recommendClaimV1 (_now : Nat) (actor : Actor) (cid : String)
    (recommendation : String) (store : List ClaimRec) : Resp × List ClaimRec :=
  if ¬ checkRole ["admin", "approver"] actor.role then (accessDenied, store)
  else if trimStr recommendation = "" then
    (resp 400 false "Recommendation is required", store)
  else withClaim cid store (fun c =>
    match saveClaimUpdate { c with status := "recommendation" } store with
    | none => (resp 500 false "Server error", store)
    | some s => (resp 200 true "Recommendation added successfully", s))

/-- PUT /api/claims/:id/pay (`src/routers/claims.js` lines 485-543):
admin role guard, a non-empty trimmed payment reference, lookup, then the
status guard admits only `approved`; on success the claim is stamped
`paid` with the acting user, a timestamp and the payment reference. -/
def payClaimV1 (now : Nat) (actor : Actor) (cid : String)
    (payment_reference : String) (store : List ClaimRec) : Resp × List ClaimRec :=
  if ¬ checkRole ["admin"] actor.role then (accessDenied, store)
  else
    let pT := trimStr payment_reference
    if pT = "" then (resp 400 false "Payment reference is required", store)
    else withClaim cid store (fun c =>
      if c.status ≠ "approved" then
        (resp 400 false "Only approved claims can be marked as paid", store)
      else
        let c1 : ClaimRec :=
          { c with status := "paid", paid_by := some actor.userId,
                   paid_at := some now, payment_reference := some pT }
        match saveClaimUpdate c1 store with
        | none => (resp 500 false "Server error", store)
        | some s => (resp 200 true "Claim marked as paid successfully", s))

/-- PUT /api/claims/:id/status, the generic setter of router variant 2
(`src/routers/claims.js` lines 1009-1067).  Role guard
admin / financial officer / accountant / administrator; the handler never
calls validationResult, so the isIn validator on the body status has no
effect; after lookup the only transition guard is that the new status must
differ case-insensitively from the current one, and then the status is
overwritten directly, with the approval stamp written regardless of the
target status. -/
def setStatusV2 (now : Nat) (actor : Actor) (cid : String)
    (newStatus : String) (notes : String) (store : List ClaimRec) :
    Resp × List ClaimRec :=
  if ¬ checkRole ["admin", "financial officer", "accountant", "administrator"]
      actor.role then (accessDenied, store)
  else withClaim cid store (fun c =>
    if lcStr c.status = lcStr newStatus then
      (resp 400 false ("Claim is already " ++ newStatus), store)
    else
      let nT := trimStr notes
      let c1 : ClaimRec :=
        { c with status := newStatus, approved_by := some actor.userId,
                 approved_at := some now,
                 notesByAdmin := if nT = "" then c.notesByAdmin else some nT }
      match saveClaimUpdate c1 store with
      | none => (resp 500 false "Server error", store)
      | some s =>
        (resp 200 true ("Claim successfully changed to " ++ ucStr newStatus), s))

/-- DELETE /api/claims/:id, variant 1 (`src/routers/claims.js`
lines 548-592): lookup, owner-or-admin check, then deletion is allowed
only in status `new`. -/
def deleteClaimV1 (actor : Actor) (cid : String) (store : List ClaimRec) :
    Resp × List ClaimRec :=
  withClaim cid store (fun c =>
    if actor.role ≠ "admin" ∧ c.user_id ≠ actor.userId then
      (resp 403 false "Access denied", store)
    else if c.status ≠ "new" then
      (resp 400 false "Only new claims can be deleted", store)
    else
      (resp 200 true "Claim deleted successfully",
       store.filter (fun d => ¬ (d.oid = cid))))

/-- DELETE /api/claims/:id/delete, variant 2 (`src/routers/claims.js`
lines 1194-1238): the ownership check admits only the owner (an admin who
does not own the claim is denied), and the status condition is the
JavaScript expression `claim.status !== new && pending`, whose right
operand is a truthy string literal, so it is equivalent to
`claim.status !== new`. -/
def deleteClaimV2 (actor : Actor) (cid : String) (store : List ClaimRec) :
    Resp × List ClaimRec :=
  withClaim cid store (fun c =>
    if c.user_id ≠ actor.userId then
      (resp 403 false "Access denied", store)
    else if c.status ≠ "new" then
      (resp 400 false "Only new claims can be deleted", store)
    else
      (resp 200 true "Claim deleted successfully",
       store.filter (fun d => ¬ (d.oid = cid))))

end IfrsClaims

namespace IfrsClaims

/-- PUT /api/users/:id/status (`src/routers/users.js` lines 276-325):
admin role guard, a required body status (JavaScript falsy check, so the
empty string counts as missing), lookup, then the self-protection guard
answers 400 before the status is overwritten and saved. -/
def setUserStatus (actor : Actor) (targetId : String) (status : String)
    (users : List UserRec) : Resp × List UserRec :=
  if ¬ checkRole ["admin"] actor.role then (accessDenied, users)
  else if status = "" then (resp 400 false "Status is required", users)
  else match findUser targetId users with
  | none => (resp 404 false "User not found", users)
  | some u =>
    if u.oid = actor.userId then
      (resp 400 false "Cannot deactivate your own account", users)
    else match saveUserUpdate { u with status := status } users with
    | none => (resp 500 false "Server error", users)
    | some users' =>
      (resp 200 true ("User status updated to " ++ status ++ " successfully"),
       users')

/-- DELETE /api/users/:id/delete (`src/routers/users.js` lines 331-372):
admin role guard, then the handler dereferences the looked-up record for
the self-protection comparison before any null check, so a missing user
raises a TypeError that the catch block answers with 500; the
User-not-found 404 branch sits after findByIdAndDelete and is unreachable
when the earlier lookup succeeded. -/
def deleteUser (actor : Actor) (targetId : String) (users : List UserRec) :
    Resp × List UserRec :=
  if ¬ checkRole ["admin"] actor.role then (accessDenied, users)
  else match findUser targetId users with
  | none => (resp 500 false "Server error", users)
  | some u =>
    if u.oid = actor.userId then
      (resp 400 false "Cannot delete your own account", users)
    else
      (resp 200 true "User deleted successfully",
       users.filter (fun v => ¬ (v.oid = targetId)))

/-- Digit-run value: the parseInt of a captured digit group. -/
def digitsVal (ds : List Char) : Nat :=
  ds.foldl (fun n c => 10 * n + (c.toNat - 48)) 0

/-- The literal part of the employee-id pattern. -/
def hfaPat : List Char := ['H', 'F', 'A', '-', 'W', '-']

/-- Leftmost match of the regular expression HFA-W-(\d+) against a
character list, returning the numeric value of the captured digit group:
scan for an occurrence of the literal followed by at least one digit and
take the maximal digit run. -/
def hfaScan : List Char → Option Nat
  | [] => none
  | c :: rest =>
    if hfaPat.isPrefixOf (c :: rest) then
      let ds := ((c :: rest).drop 6).takeWhile (fun ch => ch.isDigit)
      if ds.isEmpty then hfaScan rest else some (digitsVal ds)
    else hfaScan rest

/-- Lexicographic character-list comparison: the order MongoDB uses when
sorting the ASCII employee-id strings of this system. -/
def strLt : List Char → List Char → Bool
  | [], [] => false
  | [], _ :: _ => true
  | _ :: _, [] => false
  | a :: as, b :: bs => if a < b then true else if b < a then false else strLt as bs

/-- User.findOne().sort(-employee_id): the stored user whose employee id
is largest in the sort order (the first such record on ties). -/
def lastUserByEmployeeId (users : List UserRec) : Option UserRec :=
  users.foldl
    (fun acc u =>
      match acc with
      | none => some u
      | some v => if strLt v.employee_id.data u.employee_id.data then some u else some v)
    none

/-- userSchema.statics.generateEmployeeId (`src/unnamed/part_000`
lines 92-103): with no users the first id is HFA-W-1001; otherwise the id
with the largest sort value is matched against HFA-W-(\d+) and the captured
number is incremented; if the pattern does not match, the fallback id is
derived from the document count plus the 1000 offset. -/
def generateEmployeeId (users : List UserRec) : String :=
  match lastUserByEmployeeId users with
  | none => "HFA-W-1001"
  | some lastUser =>
    match hfaScan lastUser.employee_id.data with
    | some n => "HFA-W-" ++ toString (n + 1)
    | none => "HFA-W-" ++ toString (1000 + users.length + 1)

/-- POST /api/auth/login (`src/routers/auth.js` lines 11-189).  After the
validator chain (trimmed non-empty username, non-empty password) the
handler takes the hardcoded admin branch when the lowercased username is
admin and the password is the magic constant; in that branch a missing
admin account makes the handler reference the identifier `bcrypt`, which
auth.js never imports, so the ReferenceError lands in the catch block as a
500.  The regular branch looks the user up by lowercased email or
uppercased employee id; an unknown user answers 401 Invalid credentials,
an inactive account 403, a failed credential comparison 401 with the
distinct message Incorrect Password credentials, and success stamps
last_login and saves. -/
def loginHandler (now : Nat) (username password : String)
    (users : List UserRec) : Resp × List UserRec :=
  let uT := trimStr username
  if uT = "" ∨ password = "" then (resp 400 false "Validation failed", users)
  else if lcStr uT = "admin" ∧ password = "Admin@123" then
    match users.find? (fun u => u.email == "admin@hfa-uk.com") with
    | none => (resp 500 false "Server error during authentication", users)
    | some a =>
      if ¬ comparePassword password a then
        (resp 401 false "Invalid credentials", users)
      else match saveUserUpdate { a with last_login := some now } users with
      | none => (resp 500 false "Server error during authentication", users)
      | some users' => (resp 200 true "", users')
  else
    match users.find? (fun u => u.email == lcStr uT || u.employee_id == ucStr uT) with
    | none => (resp 401 false "Invalid credentials", users)
    | some u =>
      if u.status ≠ "active" then
        (resp 403 false "Account is not active. Please contact administrator.",
         users)
      else if ¬ comparePassword password u then
        (resp 401 false "Incorrect Password credentials", users)
      else match saveUserUpdate { u with last_login := some now } users with
      | none => (resp 500 false "Server error during authentication", users)
      | some users' => (resp 200 true "", users')

end IfrsClaims

namespace IfrsClaims

/-- Demo admin caller. -/
def adminActor : Actor := ⟨"adm1", "admin"⟩

/-- Demo worker caller, the owner of the demo claims. -/
def aliceActor : Actor := ⟨"u-alice", "worker"⟩

/-- Demo worker caller who owns nothing. -/
def malloryActor : Actor := ⟨"u-mallory", "worker"⟩

/-- Demo stored user backing the worker caller. -/
def aliceUser : UserRec :=
  { oid := "u-alice", employee_id := "HFA-W-1001", name := "Alice",
    email := "alice@hfa-uk.com", password := "hash-alice-1",
    department := "Ops" }

/-- Demo stored admin user. -/
def adminUser : UserRec :=
  { oid := "adm1", employee_id := "HFA-ADMIN-001", name := "Administrator",
    email := "root@hfa-uk.com", password := "hash-admin-1", role := "admin",
    department := "Administration" }

/-- Demo claim in status new, schema-valid. -/
def newClaim : ClaimRec :=
  { oid := "c1", claim_id := "HFA-C-3001", user_id := "u-alice",
    claimant_name := some "Alice", employee_id := some "HFA-W-1001",
    date := some "2024-01-05", claim_type := some "Meeting", amount := 200 }

/-- Demo claim in status approved, schema-valid. -/
def approvedClaim : ClaimRec :=
  { newClaim with
    oid := "c2"
    claim_id := "HFA-C-3002"
    status := "approved"
    approved_by := some "adm1"
    approved_at := some 1 }

/-- Demo claim in status paid, schema-valid. -/
def paidClaim : ClaimRec :=
  { newClaim with
    oid := "c3"
    claim_id := "HFA-C-3003"
    status := "paid"
    approved_by := some "adm1"
    approved_at := some 1
    paid_by := some "adm1"
    paid_at := some 2
    payment_reference := some "PAY-77" }

end IfrsClaims

namespace IfrsClaims

/-- Demo workers with sequential employee ids HFA-W-1001 .. HFA-W-1005. -/
def hfaUser (oid eid : String) : UserRec :=
  { oid := oid, employee_id := eid, name := "W",
    email := oid ++ "@hfa-uk.com", password := "hash-w-1",
    department := "Ops" }

/-- Demo user population with ids HFA-W-1001 through HFA-W-1005. -/
def fiveUsers : List UserRec :=
  [hfaUser "u1" "HFA-W-1001", hfaUser "u2" "HFA-W-1002",
   hfaUser "u3" "HFA-W-1003", hfaUser "u4" "HFA-W-1004",
   hfaUser "u5" "HFA-W-1005"]

/-- Demo user whose employee id does not match the HFA-W-NNNN pattern. -/
def legacyUser : UserRec :=
  { oid := "u9", employee_id := "EMP-OLD-7", name := "Legacy",
    email := "legacy@hfa-uk.com", password := "hash-l-1",
    department := "Ops" }

/-- Claim C7: employee-id allocation is sequential from the highest
existing id (HFA-W-1001..HFA-W-1005 allocates HFA-W-1006), an empty store
allocates HFA-W-1001, and when the highest existing id does not match the
HFA-W-NNNN pattern the generator falls back to the count-plus-offset id
1000 + count + 1 without raising an error. -/
theorem C7_employee_id :
    generateEmployeeId fiveUsers = "HFA-W-1006" ∧
    generateEmployeeId [] = "HFA-W-1001" ∧
    (∀ (users : List UserRec) (u : UserRec),
      lastUserByEmployeeId users = some u →
      hfaScan u.employee_id.data = none →
      generateEmployeeId users = "HFA-W-" ++ toString (1000 + users.length + 1)) := by
  refine ⟨by decide, by decide, ?_⟩
  intro users u hlast hscan
  simp [generateEmployeeId, hlast, hscan]

/-- Witness for C7: the fallback branch evaluated on a store whose only
employee id is malformed. -/
theorem C7_employee_id_witness :
    generateEmployeeId [legacyUser]
      = "HFA-W-" ++ toString (1000 + [legacyUser].length + 1) :=
  C7_employee_id.2.2 [legacyUser] legacyUser (by decide) (by decide)

/-- Claim C10: a hard-delete request for a user id that matches no stored
user is answered 500 Server error (the handler dereferences the null
lookup result for the self-check before any not-found test), not 404, and
the store is unchanged. -/
theorem C10_delete_missing_user (actor : Actor) (targetId : String)
    (users : List UserRec)
    (hrole : actor.role = "admin")
    (hmiss : findUser targetId users = none) :
    deleteUser actor targetId users = (resp 500 false "Server error", users) := by
  unfold deleteUser
  rw [hmiss]
  simp [checkRole, hrole]

/-- Witness for C10: an admin hard-deleting an id that is absent from a
concrete two-user store. -/
theorem C10_delete_missing_user_witness :
    deleteUser adminActor "ghost" [adminUser, aliceUser]
      = (resp 500 false "Server error", [adminUser, aliceUser]) :=
  C10_delete_missing_user adminActor "ghost" [adminUser, aliceUser]
    (by decide) (by decide)

/-- Claim C4, code evaluation at the failing input: a recommend request on
a claim in status new by an admin with a non-empty recommendation is
answered 500 and leaves the store unchanged, because the status value
recommendation the handler writes is not a member of the claim-schema
status enum, so the save fails validation. -/
theorem C4_code_eval :
    recommendClaimV1 7 adminActor "c1" "looks fine" [newClaim]
      = (resp 500 false "Server error", [newClaim]) ∧
    "recommendation" ∉ statusEnum ∧
    newClaim.status = "new" := by decide

/-- Claim C2, code evaluation at the failing inputs: in router variant 2
the owning non-admin user is denied 403 when editing their own claim in
status new, and an admin is denied 403 when deleting another user's claim,
while the single-claim read correctly admits the owner — the ownership
conditions of the variant-2 edit and delete handlers contradict the
owner-or-admin rule the read handler uses. -/
theorem C2_code_eval :
    updateClaimV2 aliceActor "c1" { description := some "upd" } [newClaim]
      = (resp 403 false "Access denied", [newClaim]) ∧
    deleteClaimV2 adminActor "c1" [newClaim]
      = (resp 403 false "Access denied", [newClaim]) ∧
    (getClaim aliceActor "c1" [newClaim]).code = 200 ∧
    newClaim.user_id = aliceActor.userId ∧
    newClaim.status = "new" ∧
    adminActor.role = "admin" := by decide

end IfrsClaims

namespace IfrsClaims

/-- Claim C8, counterexample: against a store holding one active user, the
unknown-user failure and the wrong-password failure produce different
client-visible messages (Invalid credentials versus Incorrect Password
credentials), so the two runs are distinguishable in the response body. -/
theorem C8_counterexample :
    (loginHandler 3 "mallory@hfa-uk.com" "guess" [aliceUser]).1
      = resp 401 false "Invalid credentials" ∧
    (loginHandler 3 "alice@hfa-uk.com" "guess" [aliceUser]).1
      = resp 401 false "Incorrect Password credentials" ∧
    (loginHandler 3 "alice@hfa-uk.com" "guess" [aliceUser]).1.message
      ≠ (loginHandler 3 "mallory@hfa-uk.com" "guess" [aliceUser]).1.message := by
  decide

/-- Claim C8, amended: outside the hardcoded admin branch, a login whose
username matches no stored user is answered 401 with the generic message
Invalid credentials, and a login against an existing active user with a
wrong password is answered 401 with the different message Incorrect
Password credentials; the status codes agree but the bodies differ, so the
two failures are distinguishable. -/
theorem C8_amended (now : Nat) (username password : String)
    (users : List UserRec)
    (hu : trimStr username ≠ "") (hp : password ≠ "")
    (hs : ¬ (lcStr (trimStr username) = "admin" ∧ password = "Admin@123")) :
    (users.find? (fun u => u.email == lcStr (trimStr username) ||
        u.employee_id == ucStr (trimStr username)) = none →
      loginHandler now username password users
        = (resp 401 false "Invalid credentials", users)) ∧
    (∀ u, users.find? (fun u => u.email == lcStr (trimStr username) ||
        u.employee_id == ucStr (trimStr username)) = some u →
      u.status = "active" → password ≠ u.password →
      loginHandler now username password users
        = (resp 401 false "Incorrect Password credentials", users)) := by
  constructor
  · intro hf
    simp [loginHandler, hu, hp, hs, hf]
  · intro u hf hact hpw
    simp [loginHandler, hu, hp, hs, hf, hact, comparePassword, hpw]

/-- Witness for C8: the amended theorem evaluated against the one-user
demo store for an unknown username and for a wrong password. -/
theorem C8_amended_witness :
    loginHandler 3 "mallory@hfa-uk.com" "guess" [aliceUser]
      = (resp 401 false "Invalid credentials", [aliceUser]) ∧
    loginHandler 3 "alice@hfa-uk.com" "guess" [aliceUser]
      = (resp 401 false "Incorrect Password credentials", [aliceUser]) :=
  ⟨(C8_amended 3 "mallory@hfa-uk.com" "guess" [aliceUser]
      (by decide) (by decide) (by decide)).1 (by decide),
   (C8_amended 3 "alice@hfa-uk.com" "guess" [aliceUser]
      (by decide) (by decide) (by decide)).2 aliceUser
      (by decide) (by decide) (by decide)⟩

end IfrsClaims

namespace IfrsClaims

/-- Claim C9, counterexample: a non-admin (worker) actor asking to change
the status of their own account is stopped by the admin-only role guard
with 403, not with the 400 the claim asserts for every role. -/
theorem C9_counterexample :
    (setUserStatus aliceActor "u-alice" "inactive" [aliceUser]).1.code = 403 ∧
    (setUserStatus aliceActor "u-alice" "inactive" [aliceUser]).1.code ≠ 400 ∧
    (setUserStatus aliceActor "u-alice" "inactive" [aliceUser]).2 = [aliceUser] ∧
    (deleteUser aliceActor "u-alice" [aliceUser]).1.code = 403 ∧
    (deleteUser aliceActor "u-alice" [aliceUser]).2 = [aliceUser] := by
  decide

/-- Claim C9, amended: when the target id resolves to the actor's own
account, an admin actor is answered 400 by both the status-change and the
hard-delete endpoint, a non-admin actor is stopped by the admin-only role
guard with 403, and in every case the user store is unchanged — the
actor's own account is never deactivated or deleted. -/
theorem C9_amended (actor : Actor) (targetId status : String)
    (users : List UserRec) (u : UserRec)
    (hfind : findUser targetId users = some u)
    (hself : u.oid = actor.userId) :
    ((setUserStatus actor targetId status users).2 = users ∧
     (actor.role = "admin" →
       (setUserStatus actor targetId status users).1.code = 400) ∧
     (actor.role ≠ "admin" →
       (setUserStatus actor targetId status users).1 = accessDenied)) ∧
    ((deleteUser actor targetId users).2 = users ∧
     (actor.role = "admin" →
       (deleteUser actor targetId users).1.code = 400) ∧
     (actor.role ≠ "admin" →
       (deleteUser actor targetId users).1 = accessDenied)) := by
  by_cases hr : actor.role = "admin"
  · by_cases hst : status = "" <;>
      simp [setUserStatus, deleteUser, checkRole, hfind, hself, hr, hst, resp]
  · simp [setUserStatus, deleteUser, checkRole, hr, accessDenied]

/-- Witness for C9: the amended theorem evaluated for the demo admin
targeting their own account. -/
theorem C9_amended_witness :
    (setUserStatus adminActor "adm1" "inactive" [adminUser]).1.code = 400 ∧
    (setUserStatus adminActor "adm1" "inactive" [adminUser]).2 = [adminUser] ∧
    (deleteUser adminActor "adm1" [adminUser]).1.code = 400 ∧
    (deleteUser adminActor "adm1" [adminUser]).2 = [adminUser] := by
  have h := C9_amended adminActor "adm1" "inactive" [adminUser] adminUser
    (by decide) (by decide)
  exact ⟨h.1.2.1 rfl, h.1.1, h.2.2.1 rfl, h.2.1⟩

/-- Request body used by the C3 counterexample: a complete variant-2
creation request with an amount of 5000, far above the escalation
threshold. -/
def c3Body : CreateBodyV2 :=
  { date := "2024-02-02", claim_id := some "HFA-C-9001",
    claimant_name := some "Alice", category := some "Meeting",
    currency := "GBP", company_name := "ACME Ltd",
    contact_person := "Bob", contact_email := "bob@acme.com",
    amount := 5000 }

/-- Claim C3, counterexample: the variant-2 create endpoint successfully
creates a claim with amount 5000 — far above the escalation threshold of
1000 — in status new, not pending. -/
theorem C3_counterexample :
    (createClaimV2 aliceActor c3Body "c9" [aliceUser] []).1.code = 201 ∧
    (createClaimV2 aliceActor c3Body "c9" [aliceUser] []).2.map
        (fun c => c.status) = ["new"] ∧
    (1000 : ℚ) < c3Body.amount := by
  decide

/-- Claim C3, amended: the variant-1 create endpoint computes the initial
status as pending exactly when the amount exceeds 1000 and new otherwise,
while the variant-2 create endpoint assigns the initial status new
unconditionally, so every claim it persists — at any amount — is stored
with status new. -/
theorem C3_amended :
    (∀ a : ℚ, (1000 < a → initialStatusV1 a = "pending") ∧
              (a ≤ 1000 → initialStatusV1 a = "new")) ∧
    (∀ (actor : Actor) (user : UserRec) (b : CreateBodyV2) (newOid : String),
       (claimDataV2 actor user b newOid).status = "new") ∧
    (∀ (actor : Actor) (b : CreateBodyV2) (newOid : String)
       (users : List UserRec) (store : List ClaimRec),
       (createClaimV2 actor b newOid users store).1.code = 201 →
       ∃ u, findUser actor.userId users = some u ∧
         (createClaimV2 actor b newOid users store).2
           = store ++ [claimDataV2 actor u b newOid]) := by
  refine ⟨?_, ?_, ?_⟩
  · intro a
    constructor
    · intro h; simp [initialStatusV1, h]
    · intro h; simp [initialStatusV1, not_lt.mpr h]
  · intro actor user b newOid; rfl
  · intro actor b newOid users store h
    unfold createClaimV2 at h ⊢
    by_cases hrole : checkRole ["worker", "admin"] actor.role
    · rw [if_neg (not_not_intro hrole)] at h ⊢
      by_cases hok : createOkV2 b
      · rw [if_neg (not_not_intro hok)] at h ⊢
        rcases hfind : findUser actor.userId users with _ | u
        · rw [hfind] at h; simp [resp] at h
        · rw [hfind] at h
          rcases hsv : saveClaimNew (claimDataV2 actor u b newOid) store
            with _ | s
          · have h2 : (match saveClaimNew (claimDataV2 actor u b newOid) store with
                | none => (resp 500 false "Server error", store)
                | some s => (resp 201 true "Claim submitted successfully", s)).1.code
                = 201 := h
            rw [hsv] at h2
            simp [resp] at h2
          · refine ⟨u, rfl, ?_⟩
            show (match saveClaimNew (claimDataV2 actor u b newOid) store with
              | none => (resp 500 false "Server error", store)
              | some s => (resp 201 true "Claim submitted successfully", s)).2
              = store ++ [claimDataV2 actor u b newOid]
            rw [hsv]
            show s = store ++ [claimDataV2 actor u b newOid]
            unfold saveClaimNew at hsv
            by_cases hv : claimValid (claimDataV2 actor u b newOid)
            · rw [if_pos hv] at hsv
              exact (Option.some.inj hsv).symm
            · rw [if_neg hv] at hsv; cases hsv
      · rw [if_pos hok] at h; simp [resp] at h
    · rw [if_pos hrole] at h; simp [accessDenied, resp] at h

end IfrsClaims

namespace IfrsClaims

/-- Witness for C3: the amended theorem evaluated at amounts 2000 and 500
for the variant-1 status rule, and at the concrete variant-2 creation of
the counterexample body. -/
theorem C3_amended_witness :
    initialStatusV1 2000 = "pending" ∧ initialStatusV1 500 = "new" ∧
    (claimDataV2 aliceActor aliceUser c3Body "c9").status = "new" ∧
    (∃ u, findUser aliceActor.userId [aliceUser] = some u ∧
      (createClaimV2 aliceActor c3Body "c9" [aliceUser] []).2
        = [] ++ [claimDataV2 aliceActor u c3Body "c9"]) :=
  ⟨(C3_amended.1 2000).1 (by decide), (C3_amended.1 500).2 (by decide),
   C3_amended.2.1 aliceActor aliceUser c3Body "c9",
   C3_amended.2.2 aliceActor c3Body "c9" [aliceUser] [] (by decide)⟩

/-- Claim C5: for a caller holding the admin or approver role, a reject
request with a missing or empty (all-whitespace) reason is answered with a
400 validation error and the store is completely unchanged — the validator
runs before any store access — while a reject with a non-empty reason on a
claim in an allowed status moves the claim to rejected with the acting
user, the timestamp and the reason recorded. -/
theorem C5_reject_validation (now : Nat) (actor : Actor)
    (cid reason : String) (store : List ClaimRec)
    (hrole : checkRole ["admin", "approver"] actor.role) :
    (trimStr reason = "" →
      rejectClaimV1 now actor cid reason store
        = (resp 400 false "Rejection reason is required", store)) ∧
    (∀ c, trimStr reason ≠ "" → findClaim cid store = some c →
      c.status ∈ (["new", "pending", "recommendation"] : List String) →
      claimValid c →
      rejectClaimV1 now actor cid reason store
        = (resp 200 true "Claim rejected successfully",
           store.map (fun d => if d.oid = c.oid then
             { c with
               status := "rejected"
               rejected_by := some actor.userId
               rejected_at := some now
               rejection_reason := some (trimStr reason) } else d))) := by
  constructor
  · intro hempty
    simp [rejectClaimV1, hrole, hempty]
  · intro c hne hfind hst hval
    have hval' : claimValid
        { c with
          status := "rejected"
          rejected_by := some actor.userId
          rejected_at := some now
          rejection_reason := some (trimStr reason) } := by
      obtain ⟨h1, h2, h3, h4, h5, h6, h7, _⟩ := hval
      exact ⟨h1, h2, h3, h4, h5, h6, h7, show "rejected" ∈ statusEnum by decide⟩
    simp only [rejectClaimV1]
    rw [if_neg (not_not_intro hrole), if_neg hne, withClaim_some _ hfind]
    rw [if_neg (not_not_intro hst)]
    unfold saveClaimUpdate
    rw [if_pos hval']

/-- Witness for C5: the empty-reason case and a successful rejection of
the demo claim in status new. -/
theorem C5_reject_validation_witness :
    rejectClaimV1 9 adminActor "c1" "   " [newClaim]
      = (resp 400 false "Rejection reason is required", [newClaim]) ∧
    rejectClaimV1 9 adminActor "c1" " no receipt " [newClaim]
      = (resp 200 true "Claim rejected successfully",
         [newClaim].map (fun d => if d.oid = newClaim.oid then
           { newClaim with
             status := "rejected"
             rejected_by := some "adm1"
             rejected_at := some 9
             rejection_reason := some (trimStr " no receipt ") } else d)) :=
  ⟨(C5_reject_validation 9 adminActor "c1" "   " [newClaim] (by decide)).1
     (by decide),
   (C5_reject_validation 9 adminActor "c1" " no receipt " [newClaim]
     (by decide)).2 newClaim (by decide) (by decide) (by decide) (by decide)⟩

end IfrsClaims

namespace IfrsClaims

/-- Claim C6: for a stored claim in status paid, both edit handlers and
both delete handlers fail — 403 when the caller fails the respective
ownership condition and 400 (the status-guard conflict) otherwise — and in
every case the store is unchanged: a paid claim is immutable through the
public edit and delete endpoints. -/
theorem C6_paid_immutable (actor : Actor) (cid : String) (b : UpdateBody)
    (store : List ClaimRec) (c : ClaimRec)
    (hfind : findClaim cid store = some c) (hpaid : c.status = "paid") :
    (updateClaimV1 actor cid b store =
      if actor.role ≠ "admin" ∧ c.user_id ≠ actor.userId then
        (resp 403 false "Access denied", store)
      else (resp 400 false "Cannot update claim in current status", store)) ∧
    (updateClaimV2 actor cid b store =
      if actor.role ≠ "admin" ∨ c.user_id ≠ actor.userId then
        (resp 403 false "Access denied", store)
      else (resp 400 false "Cannot update claim in current status", store)) ∧
    (deleteClaimV1 actor cid store =
      if actor.role ≠ "admin" ∧ c.user_id ≠ actor.userId then
        (resp 403 false "Access denied", store)
      else (resp 400 false "Only new claims can be deleted", store)) ∧
    (deleteClaimV2 actor cid store =
      if c.user_id ≠ actor.userId then
        (resp 403 false "Access denied", store)
      else (resp 400 false "Only new claims can be deleted", store)) := by
  have hn1 : c.status ∉ (["new", "pending", "recommendation"] : List String) := by
    rw [hpaid]; decide
  have hn2 : c.status ∉ (["new", "pending", "verified"] : List String) := by
    rw [hpaid]; decide
  have hnn : c.status ≠ "new" := by rw [hpaid]; decide
  refine ⟨?_, ?_, ?_, ?_⟩
  · simp only [updateClaimV1]
    rw [withClaim_some _ hfind]
    by_cases hown : actor.role ≠ "admin" ∧ c.user_id ≠ actor.userId
    · rw [if_pos hown, if_pos hown]
    · rw [if_neg hown, if_neg hown, if_pos hn1]
  · simp only [updateClaimV2]
    rw [withClaim_some _ hfind]
    by_cases hown : actor.role ≠ "admin" ∨ c.user_id ≠ actor.userId
    · rw [if_pos hown, if_pos hown]
    · rw [if_neg hown, if_neg hown, if_pos hn2]
  · simp only [deleteClaimV1]
    rw [withClaim_some _ hfind]
    by_cases hown : actor.role ≠ "admin" ∧ c.user_id ≠ actor.userId
    · rw [if_pos hown, if_pos hown]
    · rw [if_neg hown, if_neg hown, if_pos hnn]
  · simp only [deleteClaimV2]
    rw [withClaim_some _ hfind]
    by_cases hown : c.user_id ≠ actor.userId
    · rw [if_pos hown, if_pos hown]
    · rw [if_neg hown, if_neg hown, if_pos hnn]

/-- Witness for C6: the demo paid claim is untouched by an edit from its
owner and by a delete from the admin, both answered 400. -/
theorem C6_paid_immutable_witness :
    updateClaimV1 aliceActor "c3" {} [paidClaim]
      = (resp 400 false "Cannot update claim in current status", [paidClaim]) ∧
    deleteClaimV1 adminActor "c3" [paidClaim]
      = (resp 400 false "Only new claims can be deleted", [paidClaim]) := by
  have h1 := (C6_paid_immutable aliceActor "c3" {} [paidClaim] paidClaim
    (by decide) (by decide)).1
  have h2 := (C6_paid_immutable adminActor "c3" {} [paidClaim] paidClaim
    (by decide) (by decide)).2.2.1
  exact ⟨by rw [h1]; decide, by rw [h2]; decide⟩

end IfrsClaims

namespace IfrsClaims

/-- Claim C1, counterexample: the generic status setter moves the demo
approved claim straight to rejected with a 200 success — an operation
other than mark-paid that succeeds on an approved claim. -/
theorem C1_counterexample :
    approvedClaim.status = "approved" ∧
    (setStatusV2 7 adminActor "c2" "rejected" "" [approvedClaim]).1.code = 200 ∧
    (setStatusV2 7 adminActor "c2" "rejected" "" [approvedClaim]).1.success
      = true ∧
    (setStatusV2 7 adminActor "c2" "rejected" "" [approvedClaim]).2.map
      (fun d => d.status) = ["rejected"] := by
  decide

/-- Claim C1, amended: for a stored, schema-valid claim in status
approved, the per-action endpoints behave as the claim says — approve is
rejected with 400 and the store unchanged, reject / recommend / the two
edit handlers leave the store unchanged, and pay by an admin with a
non-empty payment reference moves the claim to paid — but the generic
status setter additionally accepts any schema-enum status that differs
case-insensitively from approved and overwrites the claim status with it
directly (re-approving alone is refused with 400). -/
theorem C1_amended (now : Nat) (actor : Actor) (cid : String)
    (store : List ClaimRec) (c : ClaimRec)
    (hfind : findClaim cid store = some c)
    (happ : c.status = "approved")
    (hval : claimValid c) :
    (∀ notes, checkRole ["admin", "approver"] actor.role →
      approveClaimV1 now actor cid notes store
        = (resp 400 false
            ("Claim cannot be approved in " ++ c.status ++ " status"),
           store)) ∧
    (∀ reason, (rejectClaimV1 now actor cid reason store).2 = store) ∧
    (∀ rec, (recommendClaimV1 now actor cid rec store).2 = store) ∧
    (∀ b, (updateClaimV1 actor cid b store).2 = store) ∧
    (∀ b, (updateClaimV2 actor cid b store).2 = store) ∧
    (actor.role = "admin" → ∀ ref, trimStr ref ≠ "" →
      payClaimV1 now actor cid ref store
        = (resp 200 true "Claim marked as paid successfully",
           store.map (fun d => if d.oid = c.oid then
             { c with
               status := "paid"
               paid_by := some actor.userId
               paid_at := some now
               payment_reference := some (trimStr ref) } else d))) ∧
    (checkRole ["admin", "financial officer", "accountant", "administrator"]
        actor.role →
      (∀ t notes, lcStr t = lcStr c.status →
        setStatusV2 now actor cid t notes store
          = (resp 400 false ("Claim is already " ++ t), store)) ∧
      (∀ t, t ∈ statusEnum → lcStr t ≠ lcStr c.status →
        setStatusV2 now actor cid t "" store
          = (resp 200 true ("Claim successfully changed to " ++ ucStr t),
             store.map (fun d => if d.oid = c.oid then
               { c with
                 status := t
                 approved_by := some actor.userId
                 approved_at := some now } else d)))) := by
  have hn1 : c.status ∉ (["new", "pending", "recommendation"] : List String) := by
    rw [happ]; decide
  have hn2 : c.status ∉ (["new", "pending", "verified"] : List String) := by
    rw [happ]; decide
  obtain ⟨hv1, hv2, hv3, hv4, hv5, hv6, hv7, _⟩ := hval
  refine ⟨?_, ?_, ?_, ?_, ?_, ?_, ?_⟩
  · intro notes hrole
    simp only [approveClaimV1]
    rw [if_neg (not_not_intro hrole), withClaim_some _ hfind, if_pos hn1]
  · intro reason
    simp only [rejectClaimV1]
    by_cases hrole : checkRole ["admin", "approver"] actor.role
    · rw [if_neg (not_not_intro hrole)]
      by_cases hr : trimStr reason = ""
      · rw [if_pos hr]
      · rw [if_neg hr, withClaim_some _ hfind, if_pos hn1]
    · rw [if_pos hrole]
  · intro rec
    simp only [recommendClaimV1]
    by_cases hrole : checkRole ["admin", "approver"] actor.role
    · rw [if_neg (not_not_intro hrole)]
      by_cases hr : trimStr rec = ""
      · rw [if_pos hr]
      · rw [if_neg hr, withClaim_some _ hfind]
        have hnv : ¬ claimValid { c with status := "recommendation" } := by
          intro hv
          exact absurd hv.2.2.2.2.2.2.2
            (show ¬ ("recommendation" ∈ statusEnum) by decide)
        unfold saveClaimUpdate
        rw [if_neg hnv]
    · rw [if_pos hrole]
  · intro b
    simp only [updateClaimV1]
    rw [withClaim_some _ hfind]
    by_cases hown : actor.role ≠ "admin" ∧ c.user_id ≠ actor.userId
    · rw [if_pos hown]
    · rw [if_neg hown, if_pos hn1]
  · intro b
    simp only [updateClaimV2]
    rw [withClaim_some _ hfind]
    by_cases hown : actor.role ≠ "admin" ∨ c.user_id ≠ actor.userId
    · rw [if_pos hown]
    · rw [if_neg hown, if_pos hn2]
  · intro hadm ref href
    have hrole : checkRole ["admin"] actor.role := by
      simp [checkRole, hadm]
    simp only [payClaimV1]
    rw [if_neg (not_not_intro hrole), if_neg href, withClaim_some _ hfind,
        if_neg (not_not_intro happ)]
    have hvp : claimValid
        { c with
          status := "paid"
          paid_by := some actor.userId
          paid_at := some now
          payment_reference := some (trimStr ref) } :=
      ⟨hv1, hv2, hv3, hv4, hv5, hv6, hv7, show "paid" ∈ statusEnum by decide⟩
    unfold saveClaimUpdate
    rw [if_pos hvp]
  · intro hrole
    constructor
    · intro t notes hlc
      simp only [setStatusV2]
      rw [if_neg (not_not_intro hrole), withClaim_some _ hfind,
          if_pos hlc.symm]
    · intro t ht hlc
      simp only [setStatusV2]
      have hne : ¬ (lcStr c.status = lcStr t) := fun h => hlc h.symm
      rw [if_neg (not_not_intro hrole), withClaim_some _ hfind, if_neg hne,
          if_pos (show trimStr "" = "" by decide)]
      have hvt : claimValid
          { c with
            status := t
            approved_by := some actor.userId
            approved_at := some now } :=
        ⟨hv1, hv2, hv3, hv4, hv5, hv6, hv7, ht⟩
      unfold saveClaimUpdate
      rw [if_pos hvt]

/-- Witness for C1: the amended theorem evaluated on the demo approved
claim — re-approval is refused 400, pay succeeds to paid, and the generic
setter moves it to rejected. -/
theorem C1_amended_witness :
    approveClaimV1 7 adminActor "c2" "" [approvedClaim]
      = (resp 400 false "Claim cannot be approved in approved status",
         [approvedClaim]) ∧
    payClaimV1 7 adminActor "c2" "PAY-9" [approvedClaim]
      = (resp 200 true "Claim marked as paid successfully",
         [approvedClaim].map (fun d => if d.oid = approvedClaim.oid then
           { approvedClaim with
             status := "paid"
             paid_by := some "adm1"
             paid_at := some 7
             payment_reference := some (trimStr "PAY-9") } else d)) ∧
    setStatusV2 7 adminActor "c2" "rejected" "" [approvedClaim]
      = (resp 200 true ("Claim successfully changed to " ++ ucStr "rejected"),
         [approvedClaim].map (fun d => if d.oid = approvedClaim.oid then
           { approvedClaim with
             status := "rejected"
             approved_by := some "adm1"
             approved_at := some 7 } else d)) := by
  have h := C1_amended 7 adminActor "c2" [approvedClaim] approvedClaim
    (by decide) (by decide) (by decide)
  refine ⟨?_, ?_, ?_⟩
  · have := h.1 "" (by decide)
    rw [this]
    decide
  · exact h.2.2.2.2.2.1 rfl "PAY-9" (by decide)
  · exact (h.2.2.2.2.2.2 (by decide)).2 "rejected" (by decide) (by decide)

end IfrsClaims
